import Mathlib

/-!
Shallow embedding of the `jishaku` cog (files `jishaku/features/root_command.py`
and `jishaku/features/voice.py`) and proofs about it.

The embedding models each command handler as a pure function from the relevant
state (task registry, bot counters, voice-client state) to a new state together
with the message the handler reports.  External collaborators (the discord
framework, `psutil`, `humanize`, ffmpeg) appear as opaque data carried in the
state: their outputs are fields or function-valued parameters, never recomputed
here.
-/

set_option autoImplicit false

/-! ## Task registry (`root_command.py`, `jsk_cancel`) -/

/-- One record of the task registry: its display index and an identifier for
the underlying cancellation handle (`task.task`). -/
structure TaskRec where
  index : Int
  handle : Nat
deriving DecidableEq, Repr

/-- The argument of `jsk cancel`, after the framework's
`typing.Union[int, str]` conversion: an `int` when the literal parses as one,
otherwise the raw string. -/
inductive IndexArg where
  | int (i : Int)
  | str (s : String)
deriving DecidableEq, Repr

/-- The distinct user-visible outcomes of `jsk cancel`. -/
inductive CancelMsg where
  | noTasks
  | cancelledAll (n : Nat)
  | badArgument
  | unknownTask
  | cancelledTask (i : Int)
deriving DecidableEq, Repr

/-- Result of running `jsk_cancel`: the registry afterwards, the cancellation
handles signalled (in signalling order), and the reported message. -/
structure CancelResult where
  tasks : List TaskRec
  signalled : List Nat
  msg : CancelMsg
deriving DecidableEq, Repr

/-- `self.tasks.remove(task)` after `discord.utils.get(self.tasks, index=index)`:
removes the first record whose `index` matches. -/
def removeFirstIndex (i : Int) : List TaskRec → List TaskRec
  | [] => []
  | t :: ts => if t.index == i then ts else t :: removeFirstIndex i ts

/-- `jsk_cancel` (`root_command.py` lines 177-212): empty-registry
short-circuit, then the `"~"` cancel-all branch, then rejection of any other
string literal, then `-1` popping the last record, then lookup by index. -/
def jsk_cancel (tasks : List TaskRec) (index : IndexArg) : CancelResult :=
  if tasks = [] then ⟨tasks, [], .noTasks⟩
  else
    match index with
    | .str s =>
        if s = "~" then ⟨[], tasks.map (fun t => t.handle), .cancelledAll tasks.length⟩
        else ⟨tasks, [], .badArgument⟩
    | .int i =>
        if i = -1 then
          match tasks.getLast? with
          | some t => ⟨tasks.dropLast, [t.handle], .cancelledTask t.index⟩
          | none => ⟨tasks, [], .noTasks⟩
        else
          match tasks.find? (fun t => t.index == i) with
          | some t => ⟨removeFirstIndex i tasks, [t.handle], .cancelledTask t.index⟩
          | none => ⟨tasks, [], .unknownTask⟩

/-! ## Voice feature (`voice.py`) -/

/-- The current audio source of a voice client.  `volumeAdjustable` models
`isinstance(source, discord.PCMVolumeTransformer)`; `uri` records the URI the
source was constructed from. -/
structure AudioSource where
  volumeAdjustable : Bool
  volume : ℚ
  uri : String
deriving DecidableEq, Repr

/-- The state of `ctx.guild.voice_client` that the handlers observe:
`connected` is `is_connected()`, `playing` is `is_playing()`, `paused` is
`is_paused()`, and `source` is the current audio source if any. -/
structure VoiceClient where
  channelName : String
  connected : Bool
  playing : Bool
  paused : Bool
  source : Option AudioSource
deriving DecidableEq, Repr

/-- The distinct user-visible messages of the voice commands modelled here. -/
inductive VoiceMsg where
  | notConnected
  | notPlaying
  | unsupportedVolume
  | volumeSet (v : ℚ)
  | stopped (channel : String)
  | alreadyPaused
  | pausedNow (channel : String)
  | notPaused
  | resumedNow (channel : String)
  | playingNow (channel : String)
deriving DecidableEq, Repr

/-- `connected_check` (`voice.py` lines 48-57): fails when there is no voice
client for the guild or it is not connected. -/
def connected_check (vc : Option VoiceClient) : Option VoiceMsg :=
  match vc with
  | none => some .notConnected
  | some v => if v.connected then none else some .notConnected

/-- `playing_check` (`voice.py` lines 59-72): runs `connected_check` first and
returns its message unchanged if it failed; only then consults `is_playing()`.
(The final branch is unreachable: `connected_check` already fails on `none`.) -/
def playing_check (vc : Option VoiceClient) : Option VoiceMsg :=
  match connected_check vc, vc with
  | some m, _ => some m
  | none, some v => if v.playing then none else some .notPlaying
  | none, none => some .notConnected

/-- The effect of `voice.stop()` on the client state: playback ends and the
source is dropped. -/
def stopState (v : VoiceClient) : VoiceClient :=
  { v with playing := false, paused := false, source := none }

/-- `jsk_vc_stop` (`voice.py` lines 140-152). -/
def jsk_vc_stop (vc : Option VoiceClient) : Option VoiceClient × VoiceMsg :=
  match playing_check vc, vc with
  | some m, _ => (vc, m)
  | none, some v => (some (stopState v), .stopped v.channelName)
  | none, none => (vc, .notConnected)

/-- `jsk_vc_pause` (`voice.py` lines 154-169). -/
def jsk_vc_pause (vc : Option VoiceClient) : Option VoiceClient × VoiceMsg :=
  match playing_check vc, vc with
  | some m, _ => (vc, m)
  | none, some v =>
      if v.paused then (vc, .alreadyPaused)
      else (some { v with paused := true }, .pausedNow v.channelName)
  | none, none => (vc, .notConnected)

/-- `jsk_vc_resume` (`voice.py` lines 171-186). -/
def jsk_vc_resume (vc : Option VoiceClient) : Option VoiceClient × VoiceMsg :=
  match playing_check vc, vc with
  | some m, _ => (vc, m)
  | none, some v =>
      if v.paused then (some { v with paused := false }, .resumedNow v.channelName)
      else (vc, .notPaused)
  | none, none => (vc, .notConnected)

/-- `volume = max(0.0, min(1.0, percentage / 100))` (`voice.py` line 197). -/
def clampVolume (percentage : ℚ) : ℚ :=
  max 0 (min 1 (percentage / 100))

/-- `jsk_vc_volume` (`voice.py` lines 188-207): guarded by `playing_check`;
fails distinctly when the source is not a `PCMVolumeTransformer` (also when
there is no source at all: `isinstance(None, ...)` is false), else stores the
clamped volume. -/
def jsk_vc_volume (vc : Option VoiceClient) (percentage : ℚ) :
    Option VoiceClient × VoiceMsg :=
  match playing_check vc, vc with
  | some m, _ => (vc, m)
  | none, some v =>
      let volume := clampVolume percentage
      match v.source with
      | some s =>
          if s.volumeAdjustable then
            (some { v with source := some { s with volume := volume } },
             .volumeSet volume)
          else (vc, .unsupportedVolume)
      | none => (vc, .unsupportedVolume)
  | none, none => (vc, .notConnected)

/-- `uri.lstrip("<").rstrip(">")` (`voice.py` line 226): drop every leading
`<` and every trailing `>`. -/
def stripMaskers (uri : String) : String :=
  String.mk (((uri.data.dropWhile (fun c => c = '<')).reverse.dropWhile
    (fun c => c = '>')).reverse)

/-- `jsk_vc_play` (`voice.py` lines 209-229): guarded only by
`connected_check`; stops a playing source, strips the embed maskers, then
plays `PCMVolumeTransformer(FFmpegPCMAudio(uri))` (volume-adjustable, default
volume `1.0`, built from the stripped URI). -/
def jsk_vc_play (vc : Option VoiceClient) (uri : String) :
    Option VoiceClient × VoiceMsg :=
  match connected_check vc, vc with
  | some m, _ => (vc, m)
  | none, some v =>
      let v1 := if v.playing then stopState v else v
      let uri2 := stripMaskers uri
      (some { v1 with playing := true,
                      source := some ⟨true, 1, uri2⟩ },
       .playingNow v.channelName)
  | none, none => (vc, .notConnected)

/-- The URI of the source currently held by a voice-client state, if any. -/
def currentSourceUri (vc : Option VoiceClient) : Option String :=
  match vc with
  | some v => v.source.map (fun s => s.uri)
  | none => none

/-- A connected, idle voice client used for concrete playback runs. -/
def playDemoClient : VoiceClient :=
  { channelName := "general", connected := true, playing := false,
    paused := false, source := none }

/-- A connected client playing a volume-adjustable source. -/
def demoPlayingClient : VoiceClient :=
  { channelName := "music", connected := true, playing := true,
    paused := false, source := some ⟨true, 1, "song.mp3"⟩ }

/-- A disconnected client (its other fields arbitrary). -/
def demoDisconnectedClient : VoiceClient :=
  { channelName := "music", connected := false, playing := true,
    paused := false, source := none }

/-! ## `jsk hide` / `jsk show` (`root_command.py` lines 134-156) -/

/-- The messages of `jsk hide` / `jsk show`. -/
inductive HideMsg where
  | alreadyHidden
  | nowHidden
  | alreadyVisible
  | nowVisible
deriving DecidableEq, Repr

/-- `jsk_hide`: returns the new `hidden` flag and the reported message. -/
def jsk_hide (hidden : Bool) : Bool × HideMsg :=
  if hidden then (hidden, .alreadyHidden) else (true, .nowHidden)

/-- `jsk_show`: returns the new `hidden` flag and the reported message. -/
def jsk_show (hidden : Bool) : Bool × HideMsg :=
  if !hidden then (hidden, .alreadyVisible) else (false, .nowVisible)

/-! ## Status report (`root_command.py`, `jsk`) -/

/-- Outcome of one `psutil` query: its value, or a `psutil.AccessDenied`. -/
inductive Fallible (α : Type) where
  | ok (val : α)
  | accessDenied
deriving DecidableEq, Repr

/-- `proc.memory_full_info()`. -/
structure MemInfo where
  rss : Nat
  vms : Nat
  uss : Nat
deriving DecidableEq, Repr

/-- `proc.name()`, `proc.pid`, `proc.num_threads()` (queried together). -/
structure ProcMeta where
  name : String
  pid : Nat
  threads : Nat
deriving DecidableEq, Repr

/-- The three independently fallible `psutil` interactions of the `jsk`
status handler: acquiring the process handle / oneshot context (outer `try`),
the memory query, and the name/PID/threads query. -/
structure ProcessInfo where
  oneshot : Fallible Unit
  memory : Fallible MemInfo
  meta : Fallible ProcMeta
deriving DecidableEq, Repr

/-- Everything the `jsk` status handler reads.  Lines produced by external
libraries (package versions, `humanize` times, latency formatting) are opaque
strings; `humanize.naturalsize` is an opaque function. -/
structure BotState where
  versionLine : String
  loadedLine : String
  naturalsize : Nat → String
  psutilAvailable : Bool
  procInfo : ProcessInfo
  autoSharded : Bool
  shards : List Nat
  shardCount : Nat
  shardId : Nat
  guilds : Nat
  users : Nat
  maxMessages : Nat
  discordAtLeast150 : Bool
  presences : Bool
  members : Bool
  guildSubscriptions : Bool
  latencyDisplay : String

/-- The one-line notice appended when the process handle itself cannot be
acquired (`root_command.py` lines 80-84). -/
def limitedLine : String :=
  "psutil is installed, but this process does not have high enough access rights to query process information."

/-- The memory line (`root_command.py` lines 64-66). -/
def memLine (b : BotState) (m : MemInfo) : String :=
  "Using " ++ b.naturalsize m.rss ++ " physical memory and " ++
    b.naturalsize m.vms ++ " virtual memory, " ++ b.naturalsize m.uss ++
    " of which unique to this process."

/-- The PID/name/threads line (`root_command.py` line 75). -/
def metaLine (m : ProcMeta) : String :=
  "Running on PID " ++ toString m.pid ++ " (`" ++ m.name ++ "`) with " ++
    toString m.threads ++ " thread(s)."

/-- The lines the `psutil` block appends to the summary (`root_command.py`
lines 56-85): nothing when `psutil` is missing; the notice plus a blank line
when the handle acquisition is denied; otherwise the memory line (omitted
silently on denial), the meta line (omitted silently on denial), and a blank
line. -/
def procLines (b : BotState) : List String :=
  if b.psutilAvailable then
    match b.procInfo.oneshot with
    | .accessDenied => [limitedLine, ""]
    | .ok _ =>
        (match b.procInfo.memory with
         | .ok m => [memLine b m]
         | .accessDenied => []) ++
        (match b.procInfo.meta with
         | .ok m => [metaLine m]
         | .accessDenied => []) ++ [""]
  else []

/-- `cache_summary` (`root_command.py` line 87). -/
def cacheSummary (b : BotState) : String :=
  toString b.guilds ++ " guild(s) and " ++ toString b.users ++ " user(s)"

/-- `', '.join(str(i) for i in self.bot.shards.keys())`. -/
def joinIds : List Nat → String
  | [] => ""
  | [i] => toString i
  | i :: rest => toString i ++ ", " ++ joinIds rest

/-- The shard line (`root_command.py` lines 89-108): automatically sharded
bots report only the aggregate count when there are more than 20 shards and
enumerate the shard ids otherwise; manually sharded bots report their shard
id; unsharded bots say so. -/
def shardLine (b : BotState) : String :=
  if b.autoSharded then
    if b.shards.length > 20 then
      "This bot is automatically sharded (" ++ toString b.shards.length ++
        " shards of " ++ toString b.shardCount ++ ") and can see " ++
        cacheSummary b ++ "."
    else
      "This bot is automatically sharded (Shards " ++ joinIds b.shards ++
        " of " ++ toString b.shardCount ++ ") and can see " ++
        cacheSummary b ++ "."
  else if b.shardCount ≠ 0 then
    "This bot is manually sharded (Shard " ++ toString b.shardId ++ " of " ++
      toString b.shardCount ++ ") and can see " ++ cacheSummary b ++ "."
  else
    "This bot is not sharded and can see " ++ cacheSummary b ++ "."

/-- `message_cache` (`root_command.py` lines 110-114). -/
def messageCacheStr (b : BotState) : String :=
  if b.maxMessages ≠ 0 then "Message cache capped at " ++ toString b.maxMessages
  else "Message cache is disabled"

/-- The cache/intents line (`root_command.py` lines 116-124). -/
def cacheIntentLine (b : BotState) : String :=
  if b.discordAtLeast150 then
    messageCacheStr b ++ ", presence intent is " ++
      (if b.presences then "enabled" else "disabled") ++
      " and members intent is " ++
      (if b.members then "enabled" else "disabled") ++ "."
  else
    messageCacheStr b ++ " and guild subscriptions are " ++
      (if b.guildSubscriptions then "enabled" else "disabled") ++ "."

/-- The latency line (`root_command.py` line 129). -/
def latencyLine (b : BotState) : String :=
  "Average websocket latency: " ++ b.latencyDisplay ++ "ms"

/-- The full summary the `jsk` status handler sends, as its list of lines
(`root_command.py` lines 48-131). -/
def jsk_summary (b : BotState) : List String :=
  [b.versionLine, b.loadedLine, ""] ++ procLines b ++
    [shardLine b, cacheIntentLine b, latencyLine b]

/-- A concrete bot state whose memory query is permission-denied while the
process handle and the meta query succeed (a partial permission failure). -/
def partialDeniedBot : BotState :=
  { versionLine := "Jishaku v2.0.0"
    loadedLine := "Module was loaded now, cog was loaded now."
    naturalsize := fun n => toString n ++ " B"
    psutilAvailable := true
    procInfo := { oneshot := .ok (), memory := .accessDenied,
                  meta := .ok ⟨"python3", 41, 2⟩ }
    autoSharded := false
    shards := []
    shardCount := 0
    shardId := 0
    guilds := 3
    users := 9
    maxMessages := 1000
    discordAtLeast150 := true
    presences := false
    members := true
    guildSubscriptions := false
    latencyDisplay := "42.0" }

/-- A concrete bot state where even acquiring the process handle is
permission-denied (a total permission failure). -/
def totalDeniedBot : BotState :=
  { partialDeniedBot with
      procInfo := { oneshot := .accessDenied, memory := .accessDenied,
                    meta := .accessDenied } }

/-- A concrete automatically sharded bot state with 21 shards. -/
def manyShardBot : BotState :=
  { partialDeniedBot with
      autoSharded := true
      shards := List.range 21
      shardCount := 21 }

/-- A concrete automatically sharded bot state with 3 shards. -/
def fewShardBot : BotState :=
  { partialDeniedBot with
      autoSharded := true
      shards := [0, 1, 2]
      shardCount := 3 }

/-! ## Theorems about the task registry -/

/-- C1: `cancelAll` (the `"~"` branch) on a registry of N records signals every
one of the N cancellation handles in order, clears the registry, reports the
pre-clear count N, and a second immediate invocation on the now-empty registry
signals zero handles and cancels zero tasks. -/
theorem jsk_cancel_all_spec (ts : List TaskRec) (h : ts ≠ []) :
    jsk_cancel ts (.str "~") =
      ⟨[], ts.map (fun t => t.handle), .cancelledAll ts.length⟩ ∧
    (jsk_cancel ts (.str "~")).signalled.length = ts.length ∧
    jsk_cancel (jsk_cancel ts (.str "~")).tasks (.str "~") = ⟨[], [], .noTasks⟩ ∧
    (jsk_cancel (jsk_cancel ts (.str "~")).tasks (.str "~")).signalled.length = 0 := by
  have h1 : jsk_cancel ts (.str "~") =
      ⟨[], ts.map (fun t => t.handle), .cancelledAll ts.length⟩ := by
    simp [jsk_cancel, h]
  refine ⟨h1, ?_, ?_, ?_⟩
  · rw [h1]; simp
  · rw [h1]; rfl
  · rw [h1]; rfl

theorem jsk_cancel_all_spec_witness :
    jsk_cancel [⟨0, 10⟩, ⟨1, 11⟩] (.str "~") = ⟨[], [10, 11], .cancelledAll 2⟩ :=
  (jsk_cancel_all_spec [⟨0, 10⟩, ⟨1, 11⟩] (by decide)).1

/-- C2 counterexample: on the empty registry, an absent index (here 5, with no
record having index 5 and 5 ≠ -1) does not produce the not-found outcome: the
empty-registry short-circuit answers with the distinct nothing-to-do message
instead. -/
theorem jsk_cancel_notfound_empty_cex :
    jsk_cancel [] (.int 5) = ⟨[], [], .noTasks⟩ ∧
    CancelMsg.noTasks ≠ CancelMsg.unknownTask := by
  constructor
  · rfl
  · decide

/-- C2 (amended): on a NON-EMPTY registry, cancelling an index `i ≠ -1` that no
record carries fails with the not-found outcome, leaves the registry unchanged
(same records, same order) and signals no cancellation handle; on the empty
registry the same call instead short-circuits with the nothing-to-do message,
also with no mutation and no signal. -/
theorem jsk_cancel_notfound_spec (ts : List TaskRec) (i : Int) (h1 : ts ≠ [])
    (h2 : i ≠ -1) (h3 : ts.find? (fun t => t.index == i) = none) :
    jsk_cancel ts (.int i) = ⟨ts, [], .unknownTask⟩ ∧
    jsk_cancel [] (.int i) = ⟨[], [], .noTasks⟩ := by
  constructor
  · simp [jsk_cancel, h1, h2, h3]
  · simp [jsk_cancel]

theorem jsk_cancel_notfound_spec_witness :
    jsk_cancel [⟨3, 7⟩] (.int 5) = ⟨[⟨3, 7⟩], [], .unknownTask⟩ :=
  (jsk_cancel_notfound_spec [⟨3, 7⟩] 5 (by decide) (by decide) (by decide)).1

/-- C3: on a non-empty registry (last-inserted record `t`), cancelling with the
sentinel `-1` removes exactly that record, signals its cancellation handle
exactly once, and leaves all other records present in their original order
(the registry afterwards is the original list minus its last element). -/
theorem jsk_cancel_last_spec (ts : List TaskRec) (t : TaskRec)
    (h : ts.getLast? = some t) :
    jsk_cancel ts (.int (-1)) = ⟨ts.dropLast, [t.handle], .cancelledTask t.index⟩ ∧
    ts.dropLast ++ [t] = ts := by
  have hne : ts ≠ [] := by
    intro hnil
    rw [hnil] at h
    exact Option.noConfusion h
  constructor
  · simp [jsk_cancel, hne, h]
  · exact List.dropLast_append_getLast? t (by rw [h]; rfl)

theorem jsk_cancel_last_spec_witness :
    jsk_cancel [⟨0, 10⟩, ⟨1, 11⟩, ⟨2, 12⟩] (.int (-1)) =
      ⟨[⟨0, 10⟩, ⟨1, 11⟩], [12], .cancelledTask 2⟩ :=
  (jsk_cancel_last_spec [⟨0, 10⟩, ⟨1, 11⟩, ⟨2, 12⟩] ⟨2, 12⟩ (by decide)).1

/-- C8 counterexample: on the empty registry a non-numeric, non-sentinel
literal (here `"foo"`) is not rejected with the invalid-argument error: the
empty-registry short-circuit answers first with the nothing-to-do message (and
`"~"` likewise does not trigger cancel-all there). -/
theorem jsk_cancel_literal_empty_cex :
    jsk_cancel [] (.str "foo") = ⟨[], [], .noTasks⟩ ∧
    CancelMsg.noTasks ≠ CancelMsg.badArgument ∧
    jsk_cancel [] (.str "~") = ⟨[], [], .noTasks⟩ := by
  refine ⟨rfl, by decide, rfl⟩

/-- C8 (amended): on a NON-EMPTY registry, the sentinel literal `"~"` is
special-cased to cancel-all before any numeric interpretation, and every other
string literal is rejected with the invalid-argument error with no registry
lookup result, no mutation and no handle signalled; on the empty registry the
nothing-to-do short-circuit precedes both cases. -/
theorem jsk_cancel_literal_spec (ts : List TaskRec) (s : String) (h : ts ≠ []) :
    (s = "~" →
      jsk_cancel ts (.str s) =
        ⟨[], ts.map (fun t => t.handle), .cancelledAll ts.length⟩) ∧
    (s ≠ "~" → jsk_cancel ts (.str s) = ⟨ts, [], .badArgument⟩) := by
  constructor
  · intro hs
    simp [jsk_cancel, h, hs]
  · intro hs
    simp [jsk_cancel, h, hs]

theorem jsk_cancel_literal_spec_witness :
    jsk_cancel [⟨4, 9⟩] (.str "foo") = ⟨[⟨4, 9⟩], [], .badArgument⟩ :=
  (jsk_cancel_literal_spec [⟨4, 9⟩] "foo" (by decide)).2 (by decide)

/-! ## Theorems about the voice feature -/

/-- C4: when the guards pass, `jsk_vc_volume p` stores `p / 100` clamped into
`[0, 1]` (so the inputs -50, 0, 50, 100, 150 give 0, 0, 1/2, 1, 1), and when
the active source does not expose volume control it fails with the distinct
unsupported-operation message and stores nothing. -/
theorem jsk_vc_volume_spec (v : VoiceClient) (s : AudioSource) (p : ℚ)
    (hc : v.connected = true) (hp : v.playing = true) (hs : v.source = some s) :
    (s.volumeAdjustable = true →
      jsk_vc_volume (some v) p =
        (some { v with source := some { s with volume := clampVolume p } },
         .volumeSet (clampVolume p))) ∧
    (s.volumeAdjustable = false →
      jsk_vc_volume (some v) p = (some v, .unsupportedVolume)) ∧
    (clampVolume (-50) = 0 ∧ clampVolume 0 = 0 ∧ clampVolume 50 = 1 / 2 ∧
     clampVolume 100 = 1 ∧ clampVolume 150 = 1) := by
  refine ⟨?_, ?_, ?_⟩
  · intro ha
    simp [jsk_vc_volume, playing_check, connected_check, hc, hp, hs, ha]
  · intro ha
    simp [jsk_vc_volume, playing_check, connected_check, hc, hp, hs, ha]
  · refine ⟨?_, ?_, ?_, ?_, ?_⟩ <;> norm_num [clampVolume]

theorem jsk_vc_volume_spec_witness :
    jsk_vc_volume (some demoPlayingClient) 150 =
      (some { demoPlayingClient with source := some ⟨true, 1, "song.mp3"⟩ },
       .volumeSet 1) := by
  have h :=
    (jsk_vc_volume_spec demoPlayingClient ⟨true, 1, "song.mp3"⟩ 150
      rfl rfl rfl).1 rfl
  have hc : clampVolume 150 = 1 := by norm_num [clampVolume]
  rw [hc] at h
  exact h

/-- C6: every "stop"-class command (stop, pause, resume, volume) invoked
while no active voice connection exists (no client, or a client that is not
connected) reports the not-connected message, and that report is independent
of the playing flag (the playing condition is never evaluated); invoked while
connected but with nothing playing, each reports the not-playing message. -/
theorem voice_guard_order_spec (v w : VoiceClient) (p : ℚ)
    (hnc : v.connected = false) (hc : w.connected = true)
    (hnp : w.playing = false) :
    ((jsk_vc_stop (some v)).2 = .notConnected ∧
     (jsk_vc_pause (some v)).2 = .notConnected ∧
     (jsk_vc_resume (some v)).2 = .notConnected ∧
     (jsk_vc_volume (some v) p).2 = .notConnected) ∧
    ((jsk_vc_stop none).2 = .notConnected ∧
     (jsk_vc_pause none).2 = .notConnected ∧
     (jsk_vc_resume none).2 = .notConnected ∧
     (jsk_vc_volume none p).2 = .notConnected) ∧
    (∀ b : Bool,
      (jsk_vc_stop (some { v with playing := b })).2 = VoiceMsg.notConnected ∧
      (jsk_vc_pause (some { v with playing := b })).2 = VoiceMsg.notConnected ∧
      (jsk_vc_resume (some { v with playing := b })).2 = VoiceMsg.notConnected ∧
      (jsk_vc_volume (some { v with playing := b }) p).2 = VoiceMsg.notConnected) ∧
    ((jsk_vc_stop (some w)).2 = .notPlaying ∧
     (jsk_vc_pause (some w)).2 = .notPlaying ∧
     (jsk_vc_resume (some w)).2 = .notPlaying ∧
     (jsk_vc_volume (some w) p).2 = .notPlaying) := by
  refine ⟨?_, ?_, ?_, ?_⟩
  · exact ⟨by simp [jsk_vc_stop, playing_check, connected_check, hnc],
      by simp [jsk_vc_pause, playing_check, connected_check, hnc],
      by simp [jsk_vc_resume, playing_check, connected_check, hnc],
      by simp [jsk_vc_volume, playing_check, connected_check, hnc]⟩
  · exact ⟨rfl, rfl, rfl, rfl⟩
  · intro b
    exact ⟨by simp [jsk_vc_stop, playing_check, connected_check, hnc],
      by simp [jsk_vc_pause, playing_check, connected_check, hnc],
      by simp [jsk_vc_resume, playing_check, connected_check, hnc],
      by simp [jsk_vc_volume, playing_check, connected_check, hnc]⟩
  · exact ⟨by simp [jsk_vc_stop, playing_check, connected_check, hc, hnp],
      by simp [jsk_vc_pause, playing_check, connected_check, hc, hnp],
      by simp [jsk_vc_resume, playing_check, connected_check, hc, hnp],
      by simp [jsk_vc_volume, playing_check, connected_check, hc, hnp]⟩

theorem voice_guard_order_spec_witness :
    (jsk_vc_stop (some demoDisconnectedClient)).2 = VoiceMsg.notConnected ∧
    (jsk_vc_volume (some demoDisconnectedClient) 50).2 = VoiceMsg.notConnected ∧
    (jsk_vc_stop (some playDemoClient)).2 = VoiceMsg.notPlaying ∧
    (jsk_vc_volume (some playDemoClient) 50).2 = VoiceMsg.notPlaying := by
  have h := voice_guard_order_spec demoDisconnectedClient playDemoClient 50
    rfl rfl rfl
  exact ⟨h.1.1, h.1.2.2.2, h.2.2.2.1, h.2.2.2.2.2.2⟩

/-- C9: `jsk_vc_play` applied to `"<http://x/a.mp3>"` and to
`"http://x/a.mp3"` constructs the audio source from the same resolved URI
`"http://x/a.mp3"`: the enclosing angle-bracket maskers are stripped and a
bare URI passes through unchanged. -/
theorem jsk_vc_play_strip_spec :
    currentSourceUri (jsk_vc_play (some playDemoClient) "<http://x/a.mp3>").1 =
      some "http://x/a.mp3" ∧
    currentSourceUri (jsk_vc_play (some playDemoClient) "http://x/a.mp3").1 =
      some "http://x/a.mp3" ∧
    stripMaskers "<http://x/a.mp3>" = stripMaskers "http://x/a.mp3" := by
  refine ⟨?_, ?_, ?_⟩ <;> decide

/-- C10: `jsk_hide` and `jsk_show` are idempotent on the hidden flag: hiding
when already hidden keeps the flag hidden and reports the already-hidden
message, showing when already visible keeps the flag visible and reports the
already-visible message, and after any hide (resp. show) invocation the flag
is hidden (resp. visible), with the success message otherwise. -/
theorem hide_show_spec :
    jsk_hide true = (true, .alreadyHidden) ∧
    jsk_hide false = (true, .nowHidden) ∧
    jsk_show false = (false, .alreadyVisible) ∧
    jsk_show true = (false, .nowVisible) := by
  decide

/-! ## Theorems about the status report -/

/-- Every id occurring in a list occurs literally in its comma-join. -/
theorem exists_of_mem_joinIds (i : Nat) :
    ∀ l : List Nat, i ∈ l →
      ∃ pre post, (joinIds l).data = pre ++ (toString i).data ++ post := by
  intro l
  induction l with
  | nil => intro h; cases h
  | cons x rest ih =>
    intro h
    cases rest with
    | nil =>
      have hx : i = x := by simpa using h
      subst hx
      exact ⟨[], [], by simp [joinIds]⟩
    | cons y t =>
      rcases List.mem_cons.mp h with hx | hm
      · subst hx
        refine ⟨[], ", ".data ++ (joinIds (y :: t)).data, ?_⟩
        simp [joinIds, String.data_append]
      · rcases ih hm with ⟨pre, post, hp⟩
        refine ⟨(toString x).data ++ ", ".data ++ pre, post, ?_⟩
        simp [joinIds, String.data_append, hp]

/-- C7: for an automatically sharded bot the shard line is part of the status
report; with more than 20 shards it depends only on the shard count (so two
shard maps of the same size yield the identical line: no ids are enumerated),
and with at most 20 shards every individual shard id occurs literally in the
line. -/
theorem shard_line_spec (b : BotState) (hauto : b.autoSharded = true) :
    shardLine b ∈ jsk_summary b ∧
    (b.shards.length > 20 →
      ∀ shards2 : List Nat, shards2.length = b.shards.length →
        shardLine { b with shards := shards2 } = shardLine b) ∧
    (b.shards.length ≤ 20 →
      ∀ i ∈ b.shards,
        ∃ pre post, (shardLine b).data = pre ++ (toString i).data ++ post) := by
  refine ⟨by simp [jsk_summary], ?_, ?_⟩
  · intro hgt shards2 hlen
    have h2 : shards2.length > 20 := hlen ▸ hgt
    simp [shardLine, cacheSummary, hauto, hgt, h2, hlen]
  · intro hle i hi
    have hngt : ¬ b.shards.length > 20 := by omega
    obtain ⟨pre, post, hp⟩ := exists_of_mem_joinIds i b.shards hi
    refine ⟨"This bot is automatically sharded (Shards ".data ++ pre,
      post ++ (" of " ++ toString b.shardCount ++ ") and can see " ++
        cacheSummary b ++ ".").data, ?_⟩
    simp [shardLine, hauto, hngt, String.data_append, hp]

theorem shard_line_spec_witness :
    shardLine { manyShardBot with shards := (List.range 21).map (fun i => i + 100) } =
      shardLine manyShardBot ∧
    (∃ pre post, (shardLine fewShardBot).data = pre ++ (toString 1).data ++ post) :=
  ⟨(shard_line_spec manyShardBot rfl).2.1 (by decide)
      ((List.range 21).map (fun i => i + 100)) (by decide),
   (shard_line_spec fewShardBot rfl).2.2 (by decide) 1 (by decide)⟩

/-- C5 counterexample: a partial permission failure (the memory query is
denied while the process handle and the meta query succeed) is omitted
silently: the capability-limited explanation line appears nowhere in the
produced report, contrary to the claim that it is explained once. -/
theorem proc_metrics_partial_cex :
    partialDeniedBot.procInfo.memory = Fallible.accessDenied ∧
    limitedLine ∉ jsk_summary partialDeniedBot := by
  exact ⟨rfl, by decide⟩

/-- C5 (amended): when acquiring the process handle itself is
permission-denied, the report explains exactly once that access rights are
insufficient and omits all process info; when only part of the info is
permission-denied, that part (and only that part) is omitted silently, with
no explanation line; and in every combination of failures the rest of the
status report (version line, shard line, cache/intents line, latency line) is
still produced. -/
theorem proc_metrics_spec (b : BotState) (hps : b.psutilAvailable = true) :
    (b.procInfo.oneshot = .accessDenied → procLines b = [limitedLine, ""]) ∧
    (∀ m, b.procInfo.oneshot = .ok () → b.procInfo.memory = .accessDenied →
      b.procInfo.meta = .ok m → procLines b = [metaLine m, ""]) ∧
    (∀ mm, b.procInfo.oneshot = .ok () → b.procInfo.memory = .ok mm →
      b.procInfo.meta = .accessDenied → procLines b = [memLine b mm, ""]) ∧
    (b.procInfo.oneshot = .ok () → b.procInfo.memory = .accessDenied →
      b.procInfo.meta = .accessDenied → procLines b = [""]) ∧
    (∀ mm m, b.procInfo.oneshot = .ok () → b.procInfo.memory = .ok mm →
      b.procInfo.meta = .ok m → procLines b = [memLine b mm, metaLine m, ""]) ∧
    (b.versionLine ∈ jsk_summary b ∧ shardLine b ∈ jsk_summary b ∧
      cacheIntentLine b ∈ jsk_summary b ∧ latencyLine b ∈ jsk_summary b) := by
  refine ⟨?_, ?_, ?_, ?_, ?_, ?_⟩
  · intro h1; simp [procLines, hps, h1]
  · intro m h1 h2 h3; simp [procLines, hps, h1, h2, h3]
  · intro mm h1 h2 h3; simp [procLines, hps, h1, h2, h3]
  · intro h1 h2 h3; simp [procLines, hps, h1, h2, h3]
  · intro mm m h1 h2 h3; simp [procLines, hps, h1, h2, h3]
  · refine ⟨?_, ?_, ?_, ?_⟩ <;> simp [jsk_summary]

theorem proc_metrics_spec_witness :
    procLines totalDeniedBot = [limitedLine, ""] ∧
    procLines partialDeniedBot = [metaLine ⟨"python3", 41, 2⟩, ""] :=
  ⟨(proc_metrics_spec totalDeniedBot rfl).1 rfl,
   (proc_metrics_spec partialDeniedBot rfl).2.1 ⟨"python3", 41, 2⟩ rfl rfl rfl⟩
